import Mathlib

/-!
Verification of the wha-component media-player platform.

The repository holds two revisions of the same Home Assistant platform:
`src/media_player.py` (called the "root file" below) and
`src/custom_components/wha/media_player.py` (the "wha file").  Both define
the classes `Speaker`, `Group` and `Wrapped`; the wha file additionally
defines `Source` and the group-level source mapping.

The embedding below models:
  * host entity state (`hass.states.get(...).attributes`) as a total map
    from entity ids to an attribute record (a missing state object and an
    empty attribute dict are observationally the same, since the code only
    ever uses `attrs.get`);
  * every `hass.services.async_call(DOMAIN, name, data)` as one `Call`
    record; an `Oracle` decides, per call, whether the host raises;
  * each `async` method as a function into `Res`, a writer-plus-exception
    monad collecting the issued calls in order and stopping at the first
    host exception, exactly as an un-caught awaited exception does in the
    Python source (none of the methods contains a try/except);
  * Python numbers as rationals (all arithmetic in the source is exact:
    integer percentages divided by 100, sums, one division).
-/

namespace Wha

/-- Attributes of a host entity state; `none` models a missing key
(`attrs.get` returns `None`).  A missing state object yields the empty
attribute record. -/
structure Attrs where
  volume_level : Option ℚ := none
  source : Option String := none
  is_volume_muted : Option Bool := none
deriving DecidableEq

/-- The host state store: entity id to attributes. -/
abbrev Host := String → Attrs

/-- A host exception payload (opaque). -/
abbrev Err := String

/-- The `data` dict of a service call, one constructor per payload shape
used by the source. -/
inductive CallData where
  | empty
  | volume (v : ℚ)
  | selSource (s : Option String)
  | muted (b : Bool)
  | media (d : String)
deriving DecidableEq

/-- One `hass.services.async_call("media_player", service, data)` with the
entity id the code put into `data`. -/
structure Call where
  service : String
  entity : String
  data : CallData
deriving DecidableEq

/-- Decides, per service call, whether the host raises an exception
(`some e`) or completes normally (`none`). -/
abbrev Oracle := Call → Option Err

/-- The oracle under which every host call succeeds. -/
def noFail : Oracle := fun _ => none

/-- Result of running a method: the calls completed, in order, and either
a normal return value or the host exception that aborted the method. -/
def Res (α : Type) : Type := List Call × Except Err α

def Res.pure (a : α) : Res α := ([], Except.ok a)

def Res.bind (m : Res α) (f : α → Res β) : Res β :=
  match m.2 with
  | Except.error e => (m.1, Except.error e)
  | Except.ok a => (m.1 ++ (f a).1, (f a).2)

/-- Forget the return value (keep trace and error behaviour). -/
def Res.unit (m : Res α) : Res Unit := (m.1, m.2.map (fun _ => Unit.unit))

/-- Issue one host service call: the oracle decides success or exception.
The exception aborts before the call takes effect, so it is not recorded
in the trace of completed calls. -/
def callService (orc : Oracle) (c : Call) : Res Unit :=
  match orc c with
  | some e => ([], Except.error e)
  | none => ([c], Except.ok Unit.unit)

/-- Replay a fixed list of calls in order, stopping at the first host
exception and returning it unchanged. -/
def replay (orc : Oracle) : List Call → Res Unit
  | [] => Res.pure Unit.unit
  | c :: cs => (callService orc c).bind (fun _ => replay orc cs)

/-- Optional volume section of a snapclient/receiver config
(`min`, `max`, `default` percentages). -/
structure VolumeCfg where
  min : Option ℤ := none
  max : Option ℤ := none
  dflt : Option ℤ := none
deriving DecidableEq

/-- Config dict handed to `Wrapped.__init__`: `entity_id`, an optional
`source` (present for receivers, absent for snapclients) and an optional
`volume` section. -/
structure WrappedCfg where
  entity_id : String
  source : Option String := none
  volume : Option VolumeCfg := none
deriving DecidableEq

/-- The `Wrapped` adapter object.  `default_volume` keeps the raw
configured percentage (the code divides by 100 only when sending it);
`default_source` is the cached source, set by `turn_on`. -/
structure Wrapped where
  entity_id : String
  source : Option String
  min_volume : ℚ
  max_volume : ℚ
  volume_scale : ℚ
  default_volume : Option ℤ
  default_source : Option String
deriving DecidableEq

/-- `Wrapped.__init__` of the wha file
(src/custom_components/wha/media_player.py, lines 280-292): the
`volume_scale` parameter defaults to `None`; `self.volume_scale` is set to
`max_volume - min_volume` only when the parameter is not `None` (its value
itself is never used), and to `1` otherwise.  `Speaker.__init__` always
constructs `Wrapped(hass, config)` with the parameter omitted. -/
def Wrapped.init (config : WrappedCfg) (volume_scale : Option ℚ) : Wrapped :=
  let volume_cfg := config.volume.getD {}
  let min_volume : ℚ := (volume_cfg.min.getD 0 : ℤ) / 100
  let max_volume : ℚ := (volume_cfg.max.getD 100 : ℤ) / 100
  { entity_id := config.entity_id
    source := config.source
    min_volume := min_volume
    max_volume := max_volume
    volume_scale := if volume_scale.isSome then max_volume - min_volume else 1
    default_volume := volume_cfg.dflt
    default_source := none }

/-- `Wrapped.__init__` of the root file (src/media_player.py, lines
222-230) together with its `volume_scale` property (lines 240-242): there
`volume_scale` is always `max_volume - min_volume`; since `min_volume` and
`max_volume` never change after `__init__`, the property is modelled as a
field fixed at construction. -/
def Wrapped.initRoot (config : WrappedCfg) : Wrapped :=
  let volume_cfg := config.volume.getD {}
  let min_volume : ℚ := (volume_cfg.min.getD 0 : ℤ) / 100
  let max_volume : ℚ := (volume_cfg.max.getD 100 : ℤ) / 100
  { entity_id := config.entity_id
    source := config.source
    min_volume := min_volume
    max_volume := max_volume
    volume_scale := max_volume - min_volume
    default_volume := volume_cfg.dflt
    default_source := none }

/-- `Wrapped.get_volume_level` (identical formula in both files):
`self.min_volume + (self.volume_scale * volume)`. -/
def Wrapped.get_volume_level (w : Wrapped) (volume : ℚ) : ℚ :=
  w.min_volume + w.volume_scale * volume

/-- `Wrapped.volume_level` property: applies `get_volume_level` to
`attrs.get("volume_level", 0)`. -/
def Wrapped.volume_level (host : Host) (w : Wrapped) : ℚ :=
  w.get_volume_level (((host w.entity_id).volume_level).getD 0)

/-- `Wrapped.set_volume_level`: issues `volume_set` with payload
`get_volume_level(volume)` (via the wha file's unconditional
`_call_service`). -/
def Wrapped.set_volume_level (orc : Oracle) (w : Wrapped) (volume : ℚ) : Res Unit :=
  callService orc ⟨"volume_set", w.entity_id, CallData.volume (w.get_volume_level volume)⟩

/-- Claim C1, counterexample.  A snapclient configured with min 20 and
max 80, wrapped exactly as `Speaker.__init__` of the wha file does
(`Wrapped(hass, config)`, i.e. with the `volume_scale` argument left at
`None`), receives `volume_set` payload `0.2 + 1 * 0.5 = 0.7` from
`set_volume_level(0.5)`, not the claimed `0.2 + (0.8 - 0.2) * 0.5 = 0.5`. -/
theorem C1_counterexample :
    (Wrapped.set_volume_level noFail
        (Wrapped.init
          { entity_id := "media_player.amp",
            volume := some { min := some 20, max := some 80 } } none)
        (1 / 2)).1
      = [⟨"volume_set", "media_player.amp", CallData.volume (7 / 10)⟩]
    ∧ (7 / 10 : ℚ) ≠ 20 / 100 + (80 / 100 - 20 / 100) * (1 / 2) := by
  constructor
  · simp [Wrapped.set_volume_level, Wrapped.init, Wrapped.get_volume_level,
      callService, noFail]
    norm_num
  · norm_num

/-- Claim C1, amended.  In the root file the `volume_set` payload and the
`volume_level` property follow the claimed formula
`min + (max - min) * v`; in the wha file that formula is used only when a
non-`None` `volume_scale` argument is passed to `Wrapped.__init__`, and
since `Speaker.__init__` never passes one, every `Wrapped` it builds uses
scale 1, giving `min + v`. -/
theorem C1_amended :
    (∀ (cfg : WrappedCfg) (v : ℚ),
      (Wrapped.initRoot cfg).get_volume_level v
        = ((cfg.volume.getD {}).min.getD 0 : ℤ) / 100
          + (((cfg.volume.getD {}).max.getD 100 : ℤ) / 100
             - ((cfg.volume.getD {}).min.getD 0 : ℤ) / 100) * v)
    ∧ (∀ (cfg : WrappedCfg) (v : ℚ),
      (Wrapped.init cfg none).get_volume_level v
        = ((cfg.volume.getD {}).min.getD 0 : ℤ) / 100 + v)
    ∧ (∀ (cfg : WrappedCfg) (vs v : ℚ),
      (Wrapped.init cfg (some vs)).get_volume_level v
        = ((cfg.volume.getD {}).min.getD 0 : ℤ) / 100
          + (((cfg.volume.getD {}).max.getD 100 : ℤ) / 100
             - ((cfg.volume.getD {}).min.getD 0 : ℤ) / 100) * v)
    ∧ (∀ (orc : Oracle) (w : Wrapped) (v : ℚ),
      Wrapped.set_volume_level orc w v
        = callService orc
            ⟨"volume_set", w.entity_id, CallData.volume (w.get_volume_level v)⟩)
    ∧ (∀ (host : Host) (w : Wrapped),
      w.volume_level host
        = w.get_volume_level (((host w.entity_id).volume_level).getD 0)) := by
  refine ⟨?_, ?_, ?_, ?_, ?_⟩
  · intro cfg v
    simp [Wrapped.initRoot, Wrapped.get_volume_level]
  · intro cfg v
    simp [Wrapped.init, Wrapped.get_volume_level]
  · intro cfg vs v
    simp [Wrapped.init, Wrapped.get_volume_level]
  · intro orc w v
    rfl
  · intro host w
    rfl

/-- Module-level `_call_service` of the wha file (lines 88-92): always
issues the call (no entity-id check). -/
def _call_service (orc : Oracle) (name : String) (entity_id : String)
    (data : CallData) : Res Unit :=
  callService orc ⟨name, entity_id, data⟩

/-- `Wrapped.call_service` (wha file lines 310-313, root file lines
252-255): issues the call only when `self.entity_id` is truthy. -/
def Wrapped.call_service (orc : Oracle) (w : Wrapped) (name : String)
    (data : CallData) : Res Unit :=
  if w.entity_id = "" then Res.pure Unit.unit
  else callService orc ⟨name, w.entity_id, data⟩

/-- `Wrapped.turn_on`: issues `turn_on`, then caches
`attrs.get("source")` into `default_source`.  The updated object is the
return value. -/
def Wrapped.turn_on (orc : Oracle) (host : Host) (w : Wrapped) : Res Wrapped :=
  (callService orc ⟨"turn_on", w.entity_id, CallData.empty⟩).bind (fun _ =>
    Res.pure { w with default_source := (host w.entity_id).source })

/-- `Wrapped.select_source`: issues `select_source` with the given
source payload (the Python value passed may be `None`). -/
def Wrapped.select_source (orc : Oracle) (w : Wrapped)
    (source : Option String) : Res Unit :=
  callService orc ⟨"select_source", w.entity_id, CallData.selSource source⟩

/-- `Wrapped.select_default_source`: re-selects the cached
`default_source` when one is cached, otherwise does nothing. -/
def Wrapped.select_default_source (orc : Oracle) (w : Wrapped) : Res Unit :=
  match w.default_source with
  | none => Res.pure Unit.unit
  | some ds => Wrapped.select_source orc w (some ds)

/-- `Wrapped.turn_off`: re-selects the cached default source, then issues
`turn_off`. -/
def Wrapped.turn_off (orc : Oracle) (w : Wrapped) : Res Unit :=
  (Wrapped.select_default_source orc w).bind (fun _ =>
    callService orc ⟨"turn_off", w.entity_id, CallData.empty⟩)

/-- `Wrapped.mute_volume`: issues `volume_mute`. -/
def Wrapped.mute_volume (orc : Oracle) (w : Wrapped) (mute : Bool) : Res Unit :=
  callService orc ⟨"volume_mute", w.entity_id, CallData.muted mute⟩

/-- `Wrapped.set_default_volume`: when a default volume percentage is
configured, issues `volume_set` with payload `default_volume / 100`. -/
def Wrapped.set_default_volume (orc : Oracle) (w : Wrapped) : Res Unit :=
  match w.default_volume with
  | none => Res.pure Unit.unit
  | some d => callService orc ⟨"volume_set", w.entity_id, CallData.volume ((d : ℚ) / 100)⟩

/-- Receiver section of a speaker config: like a snapclient section plus
the required `source`. -/
structure ReceiverCfg where
  entity_id : String
  source : String
  volume : Option VolumeCfg := none
deriving DecidableEq

/-- The `Speaker` entity.  `entity_id` is the host-assigned id of the
Speaker entity itself (used by `Group.async_turn_on`/`off`); `state` is
the `_state` string attribute. -/
structure Speaker where
  state : String
  name : String
  snap : Wrapped
  receiver : Option Wrapped
  on_default : Bool
  entity_id : String
deriving DecidableEq

/-- `Speaker.__init__` (wha file lines 153-163): wraps the snapclient and
optional receiver configs; both `Wrapped(hass, config)` calls omit the
`volume_scale` argument. -/
def Speaker.init (name : String) (on_default : Bool)
    (snapclient : WrappedCfg) (receiver : Option ReceiverCfg)
    (entity_id : String) : Speaker :=
  { state := "off"
    name := name
    snap := Wrapped.init snapclient none
    receiver := receiver.map (fun r =>
      Wrapped.init { entity_id := r.entity_id, source := some r.source,
                     volume := r.volume } none)
    on_default := on_default
    entity_id := entity_id }

/-- `Speaker.volume_level` property: the receiver's when a receiver is
configured, else the snapclient's. -/
def Speaker.volume_level (host : Host) (s : Speaker) : ℚ :=
  match s.receiver with
  | some r => r.volume_level host
  | none => s.snap.volume_level host

/-- `Speaker.async_mute_volume`: `volume_mute` to the receiver (when
present) then to the snapclient, both through `Wrapped.call_service`. -/
def Speaker.async_mute_volume (orc : Oracle) (s : Speaker) (mute : Bool) : Res Unit :=
  (match s.receiver with
   | some r => Wrapped.call_service orc r ("volume_mute") (CallData.muted mute)
   | none => Res.pure Unit.unit).bind (fun _ =>
    Wrapped.call_service orc s.snap ("volume_mute") (CallData.muted mute))

/-- `Speaker.async_set_volume_level`: delegates to the receiver when one
is configured, else to the snapclient. -/
def Speaker.async_set_volume_level (orc : Oracle) (s : Speaker) (volume : ℚ) : Res Unit :=
  match s.receiver with
  | some r => Wrapped.set_volume_level orc r volume
  | none => Wrapped.set_volume_level orc s.snap volume

/-- `Speaker.async_turn_on` (wha file lines 239-250): with a receiver,
receiver on, receiver default volume, receiver source, snapclient on,
snapclient volume 1; without, snapclient on then its default volume; then
`_state = on` and unmute. -/
def Speaker.async_turn_on (orc : Oracle) (host : Host) (s : Speaker) : Res Speaker :=
  match s.receiver with
  | some r =>
    (Wrapped.turn_on orc host r).bind (fun r2 =>
    (Wrapped.set_default_volume orc r2).bind (fun _ =>
    (Wrapped.select_source orc r2 r2.source).bind (fun _ =>
    (Wrapped.turn_on orc host s.snap).bind (fun snap2 =>
    (Wrapped.set_volume_level orc snap2 1).bind (fun _ =>
    let s2 := { s with receiver := some r2, snap := snap2, state := "on" }
    (Speaker.async_mute_volume orc s2 false).bind (fun _ =>
    Res.pure s2))))))
  | none =>
    (Wrapped.turn_on orc host s.snap).bind (fun snap2 =>
    (Wrapped.set_default_volume orc snap2).bind (fun _ =>
    let s2 := { s with snap := snap2, state := "on" }
    (Speaker.async_mute_volume orc s2 false).bind (fun _ =>
    Res.pure s2)))

/-- `Speaker.async_turn_off` (wha file lines 252-260): with a receiver,
receiver default source, receiver off (which itself re-selects the
receiver's default source), snapclient off (which re-selects the
snapclient's default source); without, snapclient off; then
`_state = off` and mute. -/
def Speaker.async_turn_off (orc : Oracle) (s : Speaker) : Res Speaker :=
  match s.receiver with
  | some r =>
    (Wrapped.select_default_source orc r).bind (fun _ =>
    (Wrapped.turn_off orc r).bind (fun _ =>
    (Wrapped.turn_off orc s.snap).bind (fun _ =>
    let s2 := { s with state := "off" }
    (Speaker.async_mute_volume orc s2 true).bind (fun _ =>
    Res.pure s2))))
  | none =>
    (Wrapped.turn_off orc s.snap).bind (fun _ =>
    let s2 := { s with state := "off" }
    (Speaker.async_mute_volume orc s2 true).bind (fun _ =>
    Res.pure s2))

/-- Inner `source` section of a SOURCE_SCHEMA entry: an underlying
entity with a per-entity source name and optional `play_media` payload. -/
structure SourceEntity where
  name : String
  entity_id : String
  play_media : Option String := none
deriving DecidableEq

/-- A `Source` object of the wha file.  `play_media_extra` models a
top-level `play_media` key in the config dict: `Source.play_media` checks
for it, but SOURCE_SCHEMA never admits one, so on schema-validated
configs it is `none`. -/
structure Source where
  name : String
  snapcast_source : String
  source : Option SourceEntity := none
  play_media_extra : Option String := none
deriving DecidableEq

/-- `Source.select` (wha file lines 123-127): when an underlying entity
is configured, issues `select_source` to it with that entity's
per-source name. -/
def Source.select (orc : Oracle) (s : Source) : Res Unit :=
  match s.source with
  | none => Res.pure Unit.unit
  | some se =>
    callService orc ⟨"select_source", se.entity_id, CallData.selSource (some se.name)⟩

/-- `Source.play_media` (wha file lines 129-133): checks for a top-level
`play_media` key (never present after schema validation); when present
it reads `config["source"]`, raising `KeyError` if that is absent. -/
def Source.play_media (orc : Oracle) (s : Source) : Res Unit :=
  match s.play_media_extra with
  | none => Res.pure Unit.unit
  | some d =>
    match s.source with
    | none => ([], Except.error ("KeyError"))
    | some se => callService orc ⟨"play_media", se.entity_id, CallData.media d⟩

/-- `Source.media_play`: when an underlying entity is configured, issues
`media_play` to it. -/
def Source.media_play (orc : Oracle) (s : Source) : Res Unit :=
  match s.source with
  | none => Res.pure Unit.unit
  | some se => callService orc ⟨"media_play", se.entity_id, CallData.empty⟩

/-- `Source.media_pause`: when an underlying entity is configured, issues
`media_pause` to it. -/
def Source.media_pause (orc : Oracle) (s : Source) : Res Unit :=
  match s.source with
  | none => Res.pure Unit.unit
  | some se => callService orc ⟨"media_pause", se.entity_id, CallData.empty⟩

/-- `Source.media_stop`: when an underlying entity is configured, issues
`media_stop` to it. -/
def Source.media_stop (orc : Oracle) (s : Source) : Res Unit :=
  match s.source with
  | none => Res.pure Unit.unit
  | some se => callService orc ⟨"media_stop", se.entity_id, CallData.empty⟩

/-- The `Group` entity.  `sources` keeps the configured `Source` objects
in configuration order; the Python side stores them in a name-keyed dict
built in that order. -/
structure Group where
  name : String
  snap_entity : String
  speakers : List Speaker
  sources : List Source
  state : String
deriving DecidableEq

/-- Lookup in the name-keyed sources dict.  A Python dict comprehension
keeps the last value bound to a duplicated key, hence the reversed
search. -/
def sourcesLookup (l : List Source) (n : String) : Option Source :=
  l.reverse.find? (fun s => s.name == n)

/-- `Group.volume_level` (wha file lines 401-403, root file lines
338-340): `sum(s.volume_level for s in self._speakers) /
len(self._speakers)`.  With no speakers the Python expression raises
`ZeroDivisionError`; `none` models that failure. -/
def Group.volume_level (host : Host) (g : Group) : Option ℚ :=
  match g.speakers with
  | [] => none
  | _ :: _ =>
    some ((g.speakers.map (Speaker.volume_level host)).sum / (g.speakers.length : ℚ))

/-- `Group.source` property (wha file lines 391-395): reverse-maps the
snap group's current source through
`{s.snapcast_source: s.name for s in self._sources.values()}`, falling
back to the raw value; `None` stays `None`. -/
def Group.source (host : Host) (g : Group) : Option String :=
  match (host g.snap_entity).source with
  | none => none
  | some k =>
    some ((((g.sources.map (fun s => (s.snapcast_source, s.name))).reverse.find?
      (fun p => p.1 == k)).map (fun p => p.2)).getD k)

/-- The shared body of the `Group.async_turn_on` / `async_turn_off`
loops: for each speaker in list order, when `_on_default` is set, issue
the given service to the speaker entity. -/
def groupTurnLoop (orc : Oracle) (service : String) : List Speaker → Res Unit
  | [] => Res.pure Unit.unit
  | sp :: rest =>
    (if sp.on_default then callService orc ⟨service, sp.entity_id, CallData.empty⟩
     else Res.pure Unit.unit).bind (fun _ =>
      groupTurnLoop orc service rest)

/-- `Group.async_turn_on` (wha file lines 422-427): `turn_on` to every
`_on_default` speaker in list order, then `_state = on`. -/
def Group.async_turn_on (orc : Oracle) (g : Group) : Res Group :=
  (groupTurnLoop orc ("turn_on") g.speakers).bind (fun _ =>
    Res.pure { g with state := "on" })

/-- `Group.async_turn_off` (wha file lines 429-434): `turn_off` to every
`_on_default` speaker in list order, then `_state = off`. -/
def Group.async_turn_off (orc : Oracle) (g : Group) : Res Group :=
  (groupTurnLoop orc ("turn_off") g.speakers).bind (fun _ =>
    Res.pure { g with state := "off" })

/-- `Group.async_mute_volume`: `volume_mute` to the snap group entity. -/
def Group.async_mute_volume (orc : Oracle) (g : Group) (mute : Bool) : Res Unit :=
  callService orc ⟨"volume_mute", g.snap_entity, CallData.muted mute⟩

/-- `Group.async_select_source` (wha file lines 449-454):
`self._sources[source]` raises `KeyError` when the name is absent;
otherwise the per-source select runs, then `select_source` with the
mapped `snapcast_source` goes to the snap group entity. -/
def Group.async_select_source (orc : Oracle) (g : Group) (source : String) : Res Group :=
  match sourcesLookup g.sources source with
  | none => ([], Except.error ("KeyError"))
  | some si =>
    (Source.select orc si).bind (fun _ =>
    (callService orc
        ⟨"select_source", g.snap_entity, CallData.selSource (some si.snapcast_source)⟩).bind
      (fun _ => Res.pure g))

/-- `Group.async_media_play`: `self._sources.get(self.source)` (a `None`
key finds nothing), the found source's `media_play`, then
`_state = playing`. -/
def Group.async_media_play (orc : Oracle) (host : Host) (g : Group) : Res Group :=
  (match (Group.source host g).bind (sourcesLookup g.sources) with
   | some si => Source.media_play orc si
   | none => Res.pure Unit.unit).bind (fun _ =>
    Res.pure { g with state := "playing" })

/-- `Group.async_media_pause`: like `async_media_play` with `media_pause`
and `_state = paused`. -/
def Group.async_media_pause (orc : Oracle) (host : Host) (g : Group) : Res Group :=
  (match (Group.source host g).bind (sourcesLookup g.sources) with
   | some si => Source.media_pause orc si
   | none => Res.pure Unit.unit).bind (fun _ =>
    Res.pure { g with state := "paused" })

/-- `Group.async_media_stop`: like `async_media_play` with `media_stop`
and `_state = idle`. -/
def Group.async_media_stop (orc : Oracle) (host : Host) (g : Group) : Res Group :=
  (match (Group.source host g).bind (sourcesLookup g.sources) with
   | some si => Source.media_stop orc si
   | none => Res.pure Unit.unit).bind (fun _ =>
    Res.pure { g with state := "idle" })

/-- Binding a pure value substitutes it. -/
theorem Res.pure_bind (a : α) (f : α → Res β) : (Res.pure a).bind f = f a := by
  simp [Res.pure, Res.bind]

/-- Associativity of `Res.bind`. -/
theorem Res.bind_assoc (m : Res α) (f : α → Res β) (g : β → Res γ) :
    (m.bind f).bind g = m.bind (fun a => (f a).bind g) := by
  obtain ⟨t, r⟩ := m
  cases r with
  | error e => simp [Res.bind]
  | ok a =>
    cases hf : (f a).2 with
    | error e => simp [Res.bind, hf]
    | ok b => simp [Res.bind, hf]

/-- `Res.unit` distributes over `Res.bind`. -/
theorem Res.unit_bind (m : Res α) (f : α → Res β) :
    Res.unit (m.bind f) = m.bind (fun a => Res.unit (f a)) := by
  obtain ⟨t, r⟩ := m
  cases r with
  | error e => simp [Res.bind, Res.unit, Except.map]
  | ok a =>
    cases hf : (f a).2 with
    | error e => simp [Res.bind, Res.unit, Except.map, hf]
    | ok b => simp [Res.bind, Res.unit, Except.map, hf]

/-- `Res.unit` of a pure result. -/
theorem Res.unit_pure (a : α) : Res.unit (Res.pure a) = Res.pure Unit.unit := by
  simp [Res.unit, Res.pure, Except.map]

/-- `Res.unit` is the identity on trivially-valued results. -/
theorem Res.unit_id (m : Res Unit) : Res.unit m = m := by
  obtain ⟨t, r⟩ := m
  cases r with
  | error e => simp [Res.unit, Except.map]
  | ok a => cases a ; simp [Res.unit, Except.map]

/-- Replaying under the all-success oracle completes every call. -/
theorem replay_noFail (l : List Call) : replay noFail l = (l, Except.ok Unit.unit) := by
  induction l with
  | nil => rfl
  | cons c cs ih => simp [replay, callService, noFail, Res.bind, ih]

/-- Replay of a concatenation runs the two halves in order. -/
theorem replay_append (orc : Oracle) (l1 l2 : List Call) :
    replay orc (l1 ++ l2) = (replay orc l1).bind (fun _ => replay orc l2) := by
  induction l1 with
  | nil => simp [replay, Res.pure_bind]
  | cons c cs ih => simp [replay, ih, Res.bind_assoc]

/-- Prepending a call to a characterized tail. -/
theorem unit_chain (orc : Oracle) (c : Call) (m : Res α) (l : List Call)
    (h : Res.unit m = replay orc l) :
    Res.unit ((callService orc c).bind (fun _ => m)) = replay orc (c :: l) := by
  rw [replay, ← h, Res.unit_bind]

/-- A single call is its own replay. -/
theorem call_replay (orc : Oracle) (c : Call) :
    callService orc c = replay orc [c] := by
  cases hc : orc c <;> simp [replay, callService, hc, Res.bind, Res.pure]

/-- `Res.unit` form of `call_replay`. -/
theorem unit_call (orc : Oracle) (c : Call) :
    Res.unit (callService orc c) = replay orc [c] := by
  rw [Res.unit_id, call_replay]

/-- An error produced by a replay is an error the oracle returned for one
of the listed calls, and the recorded trace is exactly the successful
prefix before that call: the error propagates unchanged and nothing runs
after it. -/
theorem replay_error_from_oracle (orc : Oracle) (l : List Call) (e : Err)
    (h : (replay orc l).2 = Except.error e) :
    ∃ l1 c l2, l = l1 ++ c :: l2 ∧ orc c = some e
      ∧ (replay orc l).1 = l1 ∧ (∀ c1 ∈ l1, orc c1 = none) := by
  induction l with
  | nil => simp [replay, Res.pure] at h
  | cons c cs ih =>
    cases hc : orc c with
    | some e2 =>
      have h2 : replay orc (c :: cs) = ([], Except.error e2) := by
        simp [replay, callService, hc, Res.bind]
      rw [h2] at h
      simp at h
      subst h
      exact ⟨[], c, cs, by simp, hc, by rw [h2], by simp⟩
    | none =>
      have h2 : replay orc (c :: cs)
          = (c :: (replay orc cs).1, (replay orc cs).2) := by
        simp [replay, callService, hc, Res.bind]
      rw [h2] at h
      simp at h
      obtain ⟨l1, c1, l2, hl, hc1, ht, hpre⟩ := ih h
      refine ⟨c :: l1, c1, l2, by simp [hl], hc1, by rw [h2] ; simp [ht], ?_⟩
      intro x hx
      cases hx with
      | head => exact hc
      | tail _ hx2 => exact hpre x hx2

/-- Call list of `Wrapped.select_default_source`. -/
def selDefCalls (w : Wrapped) : List Call :=
  match w.default_source with
  | none => []
  | some ds => [⟨"select_source", w.entity_id, CallData.selSource (some ds)⟩]

/-- Call list of `Wrapped.set_default_volume`. -/
def defVolCalls (w : Wrapped) : List Call :=
  match w.default_volume with
  | none => []
  | some d => [⟨"volume_set", w.entity_id, CallData.volume ((d : ℚ) / 100)⟩]

/-- Call list of `Wrapped.call_service` with a `volume_mute` payload. -/
def muteCalls (w : Wrapped) (b : Bool) : List Call :=
  if w.entity_id = "" then [] else [⟨"volume_mute", w.entity_id, CallData.muted b⟩]

/-- `Wrapped.call_service` replays its (possibly empty) call list. -/
theorem w_call_service_char (orc : Oracle) (w : Wrapped) (name : String)
    (data : CallData) :
    Res.unit (Wrapped.call_service orc w name data)
      = replay orc (if w.entity_id = "" then [] else [⟨name, w.entity_id, data⟩]) := by
  by_cases h : w.entity_id = "" <;>
    simp [Wrapped.call_service, h, Res.unit_pure, replay, unit_call]

/-- `_call_service` replays its single call. -/
theorem _call_service_char (orc : Oracle) (name entity_id : String) (data : CallData) :
    Res.unit (_call_service orc name entity_id data)
      = replay orc [⟨name, entity_id, data⟩] := by
  simp [_call_service, unit_call]

/-- `Wrapped.turn_on` replays its single call. -/
theorem w_turn_on_char (orc : Oracle) (host : Host) (w : Wrapped) :
    Res.unit (Wrapped.turn_on orc host w)
      = replay orc [⟨"turn_on", w.entity_id, CallData.empty⟩] := by
  rw [Wrapped.turn_on, Res.unit_bind]
  simp [Res.unit_pure, replay]

/-- `Wrapped.select_source` replays its single call. -/
theorem w_select_source_char (orc : Oracle) (w : Wrapped) (source : Option String) :
    Res.unit (Wrapped.select_source orc w source)
      = replay orc [⟨"select_source", w.entity_id, CallData.selSource source⟩] := by
  simp [Wrapped.select_source, unit_call]

/-- `Wrapped.select_default_source` replays `selDefCalls`. -/
theorem w_select_default_source_char (orc : Oracle) (w : Wrapped) :
    Res.unit (Wrapped.select_default_source orc w) = replay orc (selDefCalls w) := by
  cases hds : w.default_source <;>
    simp [Wrapped.select_default_source, selDefCalls, hds, Res.unit_pure, replay,
      w_select_source_char]

/-- `Wrapped.turn_off` replays the default-source restoration followed by
`turn_off`. -/
theorem w_turn_off_char (orc : Oracle) (w : Wrapped) :
    Res.unit (Wrapped.turn_off orc w)
      = replay orc (selDefCalls w ++ [⟨"turn_off", w.entity_id, CallData.empty⟩]) := by
  rw [Wrapped.turn_off, Res.unit_bind, replay_append,
    ← w_select_default_source_char orc w, Res.unit_id]
  simp [call_replay]
  rw [Res.unit_id]

/-- `Wrapped.mute_volume` replays its single call. -/
theorem w_mute_volume_char (orc : Oracle) (w : Wrapped) (mute : Bool) :
    Res.unit (Wrapped.mute_volume orc w mute)
      = replay orc [⟨"volume_mute", w.entity_id, CallData.muted mute⟩] := by
  simp [Wrapped.mute_volume, unit_call]

/-- `Wrapped.set_volume_level` replays its single call. -/
theorem w_set_volume_level_char (orc : Oracle) (w : Wrapped) (volume : ℚ) :
    Res.unit (Wrapped.set_volume_level orc w volume)
      = replay orc [⟨"volume_set", w.entity_id,
          CallData.volume (w.get_volume_level volume)⟩] := by
  simp [Wrapped.set_volume_level, unit_call]

/-- `Wrapped.set_default_volume` replays `defVolCalls`. -/
theorem w_set_default_volume_char (orc : Oracle) (w : Wrapped) :
    Res.unit (Wrapped.set_default_volume orc w) = replay orc (defVolCalls w) := by
  cases hd : w.default_volume <;>
    simp [Wrapped.set_default_volume, defVolCalls, hd, Res.unit_pure, replay, unit_call]

/-- Binding into `Res.pure` is the identity. -/
theorem Res.bind_pure (m : Res α) : m.bind Res.pure = m := by
  obtain ⟨t, r⟩ := m
  cases r <;> simp [Res.bind, Res.pure]

/-- Sequence a characterized unit step before a characterized tail. -/
theorem unit_seq (orc : Oracle) (m1 : Res Unit) (k : Res α) (l1 l2 : List Call)
    (h1 : m1 = replay orc l1) (h2 : Res.unit k = replay orc l2) :
    Res.unit (m1.bind (fun _ => k)) = replay orc (l1 ++ l2) := by
  rw [Res.unit_bind, replay_append, h1]
  simp only [h2]

/-- A characterized unit step followed by a pure return. -/
theorem unit_last (orc : Oracle) (m1 : Res Unit) (a : α) (l1 : List Call)
    (h1 : m1 = replay orc l1) :
    Res.unit (m1.bind (fun _ => Res.pure a)) = replay orc l1 := by
  rw [Res.unit_bind, h1]
  simp only [Res.unit_pure]
  have hfe : (fun _ : Unit => Res.pure Unit.unit) = Res.pure := by
    funext x
    cases x
    rfl
  rw [hfe, Res.bind_pure]

/-- Sequencing through `Wrapped.turn_on`: one `turn_on` call, then the
continuation applied to the updated object. -/
theorem unit_seq_turn_on (orc : Oracle) (host : Host) (w : Wrapped)
    (k : Wrapped → Res α) (l2 : List Call)
    (h2 : Res.unit (k { w with default_source := (host w.entity_id).source })
      = replay orc l2) :
    Res.unit ((Wrapped.turn_on orc host w).bind k)
      = replay orc (⟨"turn_on", w.entity_id, CallData.empty⟩ :: l2) := by
  rw [Wrapped.turn_on, Res.bind_assoc]
  simp only [Res.pure_bind]
  exact unit_chain orc _ _ l2 h2

/-- Plain-equality form of `w_call_service_char` at a mute payload. -/
theorem w_mute_call_replay (orc : Oracle) (w : Wrapped) (b : Bool) :
    Wrapped.call_service orc w ("volume_mute") (CallData.muted b)
      = replay orc (muteCalls w b) := by
  rw [← Res.unit_id (Wrapped.call_service orc w ("volume_mute") (CallData.muted b))]
  exact w_call_service_char orc w ("volume_mute") (CallData.muted b)

/-- Plain-equality form of `w_set_default_volume_char`. -/
theorem w_set_default_volume_replay (orc : Oracle) (w : Wrapped) :
    Wrapped.set_default_volume orc w = replay orc (defVolCalls w) := by
  rw [← Res.unit_id (Wrapped.set_default_volume orc w)]
  exact w_set_default_volume_char orc w

/-- Plain-equality form of `w_select_default_source_char`. -/
theorem w_select_default_source_replay (orc : Oracle) (w : Wrapped) :
    Wrapped.select_default_source orc w = replay orc (selDefCalls w) := by
  rw [← Res.unit_id (Wrapped.select_default_source orc w)]
  exact w_select_default_source_char orc w

/-- Plain-equality form of `w_turn_off_char`. -/
theorem w_turn_off_replay (orc : Oracle) (w : Wrapped) :
    Wrapped.turn_off orc w
      = replay orc (selDefCalls w ++ [⟨"turn_off", w.entity_id, CallData.empty⟩]) := by
  rw [← Res.unit_id (Wrapped.turn_off orc w)]
  exact w_turn_off_char orc w

/-- Call list of `Speaker.async_mute_volume`. -/
def speakerMuteCalls (s : Speaker) (b : Bool) : List Call :=
  (match s.receiver with
   | some r => muteCalls r b
   | none => []) ++ muteCalls s.snap b

/-- `Speaker.async_mute_volume` replays its call list. -/
theorem speaker_mute_char (orc : Oracle) (s : Speaker) (b : Bool) :
    Res.unit (Speaker.async_mute_volume orc s b)
      = replay orc (speakerMuteCalls s b) := by
  cases hr : s.receiver with
  | none =>
    simp only [Speaker.async_mute_volume, speakerMuteCalls, hr, Res.pure_bind,
      List.nil_append]
    exact w_call_service_char orc s.snap ("volume_mute") (CallData.muted b)
  | some r =>
    simp only [Speaker.async_mute_volume, speakerMuteCalls, hr]
    exact unit_seq orc _ _ _ _ (w_mute_call_replay orc r b)
      (w_call_service_char orc s.snap ("volume_mute") (CallData.muted b))

/-- Call list of `Speaker.async_set_volume_level`. -/
def speakerSetVolCalls (s : Speaker) (v : ℚ) : List Call :=
  match s.receiver with
  | some r => [⟨"volume_set", r.entity_id, CallData.volume (r.get_volume_level v)⟩]
  | none => [⟨"volume_set", s.snap.entity_id, CallData.volume (s.snap.get_volume_level v)⟩]

/-- `Speaker.async_set_volume_level` replays its call list. -/
theorem speaker_set_vol_char (orc : Oracle) (s : Speaker) (v : ℚ) :
    Res.unit (Speaker.async_set_volume_level orc s v)
      = replay orc (speakerSetVolCalls s v) := by
  cases hr : s.receiver <;>
    simp [Speaker.async_set_volume_level, speakerSetVolCalls, hr,
      w_set_volume_level_char]

/-- Call list of `Speaker.async_turn_on`. -/
def speakerTurnOnCalls (s : Speaker) : List Call :=
  match s.receiver with
  | some r =>
    ⟨"turn_on", r.entity_id, CallData.empty⟩ ::
      (defVolCalls r ++
        ⟨"select_source", r.entity_id, CallData.selSource r.source⟩ ::
        ⟨"turn_on", s.snap.entity_id, CallData.empty⟩ ::
        ⟨"volume_set", s.snap.entity_id,
            CallData.volume (s.snap.get_volume_level 1)⟩ ::
        (muteCalls r false ++ muteCalls s.snap false))
  | none =>
    ⟨"turn_on", s.snap.entity_id, CallData.empty⟩ ::
      (defVolCalls s.snap ++ muteCalls s.snap false)

/-- `Speaker.async_turn_on` replays its call list. -/
theorem speaker_turn_on_char (orc : Oracle) (host : Host) (s : Speaker) :
    Res.unit (Speaker.async_turn_on orc host s)
      = replay orc (speakerTurnOnCalls s) := by
  cases hr : s.receiver with
  | some r =>
    simp only [Speaker.async_turn_on, speakerTurnOnCalls, hr]
    apply unit_seq_turn_on
    apply unit_seq orc _ _ _ _ (w_set_default_volume_replay orc _)
    rw [Wrapped.select_source]
    apply unit_chain
    apply unit_seq_turn_on
    rw [Wrapped.set_volume_level]
    apply unit_chain
    simp only [Speaker.async_mute_volume, Res.bind_assoc]
    apply unit_seq orc _ _ _ _ (w_mute_call_replay orc _ false)
    exact unit_last orc _ _ _ (w_mute_call_replay orc _ false)
  | none =>
    simp only [Speaker.async_turn_on, speakerTurnOnCalls, hr]
    apply unit_seq_turn_on
    apply unit_seq orc _ _ _ _ (w_set_default_volume_replay orc _)
    simp only [Speaker.async_mute_volume, hr, Res.pure_bind]
    exact unit_last orc _ _ _ (w_mute_call_replay orc _ false)

/-- Call list of `Speaker.async_turn_off`. -/
def speakerTurnOffCalls (s : Speaker) : List Call :=
  match s.receiver with
  | some r =>
    selDefCalls r ++
      ((selDefCalls r ++ [⟨"turn_off", r.entity_id, CallData.empty⟩]) ++
        ((selDefCalls s.snap ++ [⟨"turn_off", s.snap.entity_id, CallData.empty⟩]) ++
          (muteCalls r true ++ muteCalls s.snap true)))
  | none =>
    (selDefCalls s.snap ++ [⟨"turn_off", s.snap.entity_id, CallData.empty⟩]) ++
      muteCalls s.snap true

/-- `Speaker.async_turn_off` replays its call list. -/
theorem speaker_turn_off_char (orc : Oracle) (s : Speaker) :
    Res.unit (Speaker.async_turn_off orc s)
      = replay orc (speakerTurnOffCalls s) := by
  cases hr : s.receiver with
  | some r =>
    simp only [Speaker.async_turn_off, speakerTurnOffCalls, hr]
    apply unit_seq orc _ _ _ _ (w_select_default_source_replay orc r)
    apply unit_seq orc _ _ _ _ (w_turn_off_replay orc r)
    apply unit_seq orc _ _ _ _ (w_turn_off_replay orc s.snap)
    simp only [Speaker.async_mute_volume, hr, Res.bind_assoc]
    apply unit_seq orc _ _ _ _ (w_mute_call_replay orc r true)
    exact unit_last orc _ _ _ (w_mute_call_replay orc _ true)
  | none =>
    simp only [Speaker.async_turn_off, speakerTurnOffCalls, hr]
    apply unit_seq orc _ _ _ _ (w_turn_off_replay orc s.snap)
    simp only [Speaker.async_mute_volume, hr, Res.pure_bind]
    exact unit_last orc _ _ _ (w_mute_call_replay orc _ true)
/-- Call list of `Source.select`. -/
def sourceSelectCalls (s : Source) : List Call :=
  match s.source with
  | none => []
  | some se => [⟨"select_source", se.entity_id, CallData.selSource (some se.name)⟩]

/-- `Source.select` replays its call list. -/
theorem source_select_replay (orc : Oracle) (s : Source) :
    Source.select orc s = replay orc (sourceSelectCalls s) := by
  cases hs : s.source with
  | none => simp [Source.select, sourceSelectCalls, hs, replay]
  | some se =>
    simp only [Source.select, sourceSelectCalls, hs]
    exact call_replay orc _

/-- Call list of `Source.media_play` / `media_pause` / `media_stop`. -/
def sourceMediaCalls (service : String) (s : Source) : List Call :=
  match s.source with
  | none => []
  | some se => [⟨service, se.entity_id, CallData.empty⟩]

/-- `Source.media_play` replays its call list. -/
theorem source_media_play_replay (orc : Oracle) (s : Source) :
    Source.media_play orc s = replay orc (sourceMediaCalls ("media_play") s) := by
  cases hs : s.source with
  | none => simp [Source.media_play, sourceMediaCalls, hs, replay]
  | some se =>
    simp only [Source.media_play, sourceMediaCalls, hs]
    exact call_replay orc _

/-- `Source.media_pause` replays its call list. -/
theorem source_media_pause_replay (orc : Oracle) (s : Source) :
    Source.media_pause orc s = replay orc (sourceMediaCalls ("media_pause") s) := by
  cases hs : s.source with
  | none => simp [Source.media_pause, sourceMediaCalls, hs, replay]
  | some se =>
    simp only [Source.media_pause, sourceMediaCalls, hs]
    exact call_replay orc _

/-- `Source.media_stop` replays its call list. -/
theorem source_media_stop_replay (orc : Oracle) (s : Source) :
    Source.media_stop orc s = replay orc (sourceMediaCalls ("media_stop") s) := by
  cases hs : s.source with
  | none => simp [Source.media_stop, sourceMediaCalls, hs, replay]
  | some se =>
    simp only [Source.media_stop, sourceMediaCalls, hs]
    exact call_replay orc _

/-- `Source.play_media` on a schema-validated config (no top-level
`play_media` key) issues nothing. -/
theorem source_play_media_replay (orc : Oracle) (s : Source)
    (h : s.play_media_extra = none) :
    Source.play_media orc s = replay orc [] := by
  simp [Source.play_media, h, replay]

/-- Call list of the `Group.async_turn_on` / `async_turn_off` loop: one
call per `_on_default` speaker, in list order. -/
def groupLoopCalls (service : String) (l : List Speaker) : List Call :=
  (l.filter (fun sp => sp.on_default)).map
    (fun sp => ⟨service, sp.entity_id, CallData.empty⟩)

/-- The group loop replays its call list. -/
theorem groupTurnLoop_replay (orc : Oracle) (service : String) (l : List Speaker) :
    groupTurnLoop orc service l = replay orc (groupLoopCalls service l) := by
  induction l with
  | nil => rfl
  | cons sp rest ih =>
    cases h : sp.on_default <;>
      simp [groupTurnLoop, groupLoopCalls, h, replay, ih, Res.pure_bind,
        List.filter_cons]

/-- `Group.async_turn_on` replays its call list. -/
theorem group_turn_on_char (orc : Oracle) (g : Group) :
    Res.unit (Group.async_turn_on orc g)
      = replay orc (groupLoopCalls ("turn_on") g.speakers) := by
  rw [Group.async_turn_on]
  exact unit_last orc _ _ _ (groupTurnLoop_replay orc ("turn_on") g.speakers)

/-- `Group.async_turn_off` replays its call list. -/
theorem group_turn_off_char (orc : Oracle) (g : Group) :
    Res.unit (Group.async_turn_off orc g)
      = replay orc (groupLoopCalls ("turn_off") g.speakers) := by
  rw [Group.async_turn_off]
  exact unit_last orc _ _ _ (groupTurnLoop_replay orc ("turn_off") g.speakers)

/-- `Group.async_mute_volume` replays its single call. -/
theorem group_mute_char (orc : Oracle) (g : Group) (mute : Bool) :
    Res.unit (Group.async_mute_volume orc g mute)
      = replay orc [⟨"volume_mute", g.snap_entity, CallData.muted mute⟩] := by
  simp [Group.async_mute_volume, unit_call]

/-- `Group.async_select_source` on a present name replays the per-source
select followed by the snap-group select. -/
theorem group_select_source_char (orc : Oracle) (g : Group) (source : String)
    (si : Source) (hlk : sourcesLookup g.sources source = some si) :
    Res.unit (Group.async_select_source orc g source)
      = replay orc (sourceSelectCalls si ++
          [⟨"select_source", g.snap_entity,
            CallData.selSource (some si.snapcast_source)⟩]) := by
  simp only [Group.async_select_source, hlk]
  apply unit_seq orc _ _ _ _ (source_select_replay orc si)
  exact unit_last orc _ _ _ (call_replay orc _)

/-- `Group.async_media_play` replays the found source's call list. -/
theorem group_media_play_char (orc : Oracle) (host : Host) (g : Group) :
    Res.unit (Group.async_media_play orc host g)
      = replay orc (match (Group.source host g).bind (sourcesLookup g.sources) with
          | some si => sourceMediaCalls ("media_play") si
          | none => []) := by
  cases hsel : (Group.source host g).bind (sourcesLookup g.sources) with
  | none =>
    simp [Group.async_media_play, hsel, Res.pure_bind, Res.unit_pure, replay]
  | some si =>
    simp only [Group.async_media_play, hsel]
    exact unit_last orc _ _ _ (source_media_play_replay orc si)

/-- `Group.async_media_pause` replays the found source's call list. -/
theorem group_media_pause_char (orc : Oracle) (host : Host) (g : Group) :
    Res.unit (Group.async_media_pause orc host g)
      = replay orc (match (Group.source host g).bind (sourcesLookup g.sources) with
          | some si => sourceMediaCalls ("media_pause") si
          | none => []) := by
  cases hsel : (Group.source host g).bind (sourcesLookup g.sources) with
  | none =>
    simp [Group.async_media_pause, hsel, Res.pure_bind, Res.unit_pure, replay]
  | some si =>
    simp only [Group.async_media_pause, hsel]
    exact unit_last orc _ _ _ (source_media_pause_replay orc si)

/-- `Group.async_media_stop` replays the found source's call list. -/
theorem group_media_stop_char (orc : Oracle) (host : Host) (g : Group) :
    Res.unit (Group.async_media_stop orc host g)
      = replay orc (match (Group.source host g).bind (sourcesLookup g.sources) with
          | some si => sourceMediaCalls ("media_stop") si
          | none => []) := by
  cases hsel : (Group.source host g).bind (sourcesLookup g.sources) with
  | none =>
    simp [Group.async_media_stop, hsel, Res.pure_bind, Res.unit_pure, replay]
  | some si =>
    simp only [Group.async_media_stop, hsel]
    exact unit_last orc _ _ _ (source_media_stop_replay orc si)
/-- `volume_int = vol.All(vol.Coerce(int), vol.Range(min=0, max=100))`
over integer-typed configuration values: `Coerce(int)` is the identity on
integers, and `Range(min=0, max=100)` accepts exactly `0 <= v <= 100`,
raising `Invalid` otherwise. -/
def volume_int (v : ℤ) : Except String ℤ :=
  if 0 ≤ v ∧ v ≤ 100 then Except.ok v else Except.error ("value out of range")

/-- `vol.Optional(...): volume_int` — an absent key passes, a present one
goes through `volume_int`. -/
def validateOptVolume : Option ℤ → Except String (Option ℤ)
  | none => Except.ok none
  | some v => (volume_int v).map some

/-- The three-key `volume` sub-schema.  On success voluptuous returns the
validated dict, which equals the input (coercion is the identity on
integers). -/
def validate_volume_section (raw : VolumeCfg) : Except String VolumeCfg :=
  match validateOptVolume raw.min with
  | Except.error e => Except.error e
  | Except.ok _ =>
    match validateOptVolume raw.max with
    | Except.error e => Except.error e
    | Except.ok _ =>
      match validateOptVolume raw.dflt with
      | Except.error e => Except.error e
      | Except.ok _ => Except.ok raw

/-- The snapclient sub-schema: required `entity_id`, optional `volume`. -/
def validate_device (raw : WrappedCfg) : Except String WrappedCfg :=
  match raw.volume with
  | none => Except.ok raw
  | some vc =>
    match validate_volume_section vc with
    | Except.error e => Except.error e
    | Except.ok _ => Except.ok raw

/-- The receiver sub-schema: required `entity_id` and `source`, optional
`volume`. -/
def validate_receiver (raw : ReceiverCfg) : Except String ReceiverCfg :=
  match raw.volume with
  | none => Except.ok raw
  | some vc =>
    match validate_volume_section vc with
    | Except.error e => Except.error e
    | Except.ok _ => Except.ok raw

/-- Raw speaker entry before SPEAKER_SCHEMA runs: `on_default` may be
absent. -/
structure SpeakerCfgRaw where
  name : String
  on_default : Option Bool := none
  snapclient : Option WrappedCfg := none
  receiver : Option ReceiverCfg := none
deriving DecidableEq

/-- Validated speaker entry: `on_default` defaulted to `True`. -/
structure SpeakerCfgV where
  name : String
  on_default : Bool
  snapclient : Option WrappedCfg
  receiver : Option ReceiverCfg
deriving DecidableEq

/-- SPEAKER_SCHEMA (both files, lines 44-64 / 48-68): validates the
optional snapclient and receiver sections and fills in the `on_default`
default `True`. -/
def SPEAKER_SCHEMA (raw : SpeakerCfgRaw) : Except String SpeakerCfgV :=
  match (match raw.snapclient with
         | none => Except.ok Unit.unit
         | some d =>
           match validate_device d with
           | Except.error e => Except.error e
           | Except.ok _ => Except.ok Unit.unit) with
  | Except.error e => Except.error e
  | Except.ok _ =>
    match (match raw.receiver with
           | none => Except.ok Unit.unit
           | some r =>
             match validate_receiver r with
             | Except.error e => Except.error e
             | Except.ok _ => Except.ok Unit.unit) with
    | Except.error e => Except.error e
    | Except.ok _ =>
      Except.ok { name := raw.name, on_default := raw.on_default.getD true,
                  snapclient := raw.snapclient, receiver := raw.receiver }

/-- The volume percentages present in an optional `volume` section. -/
def volFields : Option VolumeCfg → List ℤ
  | none => []
  | some v => [v.min, v.max, v.dflt].filterMap id

/-- All volume percentages present in a raw speaker entry. -/
def speakerRawVolumes (raw : SpeakerCfgRaw) : List ℤ :=
  (match raw.snapclient with
   | none => []
   | some d => volFields d.volume)
    ++ (match raw.receiver with
        | none => []
        | some r => volFields r.volume)

/-- A successful `validateOptVolume` leaves a present value in range. -/
theorem validateOptVolume_range (o o2 : Option ℤ)
    (h : validateOptVolume o = Except.ok o2) :
    ∀ v, o = some v → 0 ≤ v ∧ v ≤ 100 := by
  intro v hv
  subst hv
  by_cases hr : 0 ≤ v ∧ v ≤ 100
  · exact hr
  · simp [validateOptVolume, volume_int, hr, Except.map] at h

/-- A successful `validate_volume_section` leaves every present value in
range. -/
theorem validate_volume_section_range (raw out : VolumeCfg)
    (h : validate_volume_section raw = Except.ok out) :
    ∀ v ∈ volFields (some raw), 0 ≤ v ∧ v ≤ 100 := by
  intro v hv
  have hv2 : some v ∈ [raw.min, raw.max, raw.dflt] := by
    simp only [volFields, List.mem_filterMap, id_eq] at hv
    obtain ⟨a, ha, hav⟩ := hv
    rwa [hav] at ha
  rw [validate_volume_section] at h
  cases hmn : validateOptVolume raw.min with
  | error e => rw [hmn] at h ; exact absurd h (by simp)
  | ok a =>
    rw [hmn] at h
    cases hmx : validateOptVolume raw.max with
    | error e => rw [hmx] at h ; exact absurd h (by simp)
    | ok b =>
      rw [hmx] at h
      cases hdf : validateOptVolume raw.dflt with
      | error e => rw [hdf] at h ; exact absurd h (by simp)
      | ok c =>
        have h1 := validateOptVolume_range _ _ hmn
        have h2 := validateOptVolume_range _ _ hmx
        have h3 := validateOptVolume_range _ _ hdf
        simp only [List.mem_cons, List.not_mem_nil, or_false] at hv2
        rcases hv2 with h4 | h4 | h4
        · exact h1 v h4.symm
        · exact h2 v h4.symm
        · exact h3 v h4.symm

/-- A successful `validate_device` returns the input and leaves every
present volume value in range. -/
theorem validate_device_ok (raw out : WrappedCfg)
    (h : validate_device raw = Except.ok out) :
    out = raw ∧ ∀ v ∈ volFields raw.volume, 0 ≤ v ∧ v ≤ 100 := by
  cases hv : raw.volume with
  | none =>
    simp only [validate_device, hv, Except.ok.injEq] at h
    subst h
    simp [volFields, hv]
  | some vc =>
    simp only [validate_device, hv] at h
    cases hsec : validate_volume_section vc with
    | error e => simp [hsec] at h
    | ok vc2 =>
      simp only [hsec, Except.ok.injEq] at h
      subst h
      exact ⟨rfl, validate_volume_section_range vc vc2 hsec⟩

/-- A successful `validate_receiver` returns the input and leaves every
present volume value in range. -/
theorem validate_receiver_ok (raw out : ReceiverCfg)
    (h : validate_receiver raw = Except.ok out) :
    out = raw ∧ ∀ v ∈ volFields raw.volume, 0 ≤ v ∧ v ≤ 100 := by
  cases hv : raw.volume with
  | none =>
    simp only [validate_receiver, hv, Except.ok.injEq] at h
    subst h
    simp [volFields, hv]
  | some vc =>
    simp only [validate_receiver, hv] at h
    cases hsec : validate_volume_section vc with
    | error e => simp [hsec] at h
    | ok vc2 =>
      simp only [hsec, Except.ok.injEq] at h
      subst h
      exact ⟨rfl, validate_volume_section_range vc vc2 hsec⟩

/-- A successful SPEAKER_SCHEMA run keeps the sections unchanged, keeps
every present volume value in `[0, 100]`, and fills `on_default` with
`True` when the key is absent. -/
theorem SPEAKER_SCHEMA_ok (raw : SpeakerCfgRaw) (out : SpeakerCfgV)
    (h : SPEAKER_SCHEMA raw = Except.ok out) :
    (∀ v ∈ speakerRawVolumes raw, 0 ≤ v ∧ v ≤ 100)
      ∧ out.snapclient = raw.snapclient ∧ out.receiver = raw.receiver
      ∧ out.on_default = raw.on_default.getD true ∧ out.name = raw.name := by
  cases hd : raw.snapclient with
  | none =>
    cases hr : raw.receiver with
    | none =>
      simp only [SPEAKER_SCHEMA, hd, hr, Except.ok.injEq] at h
      subst h
      simp [speakerRawVolumes, hd, hr]
    | some r =>
      simp only [SPEAKER_SCHEMA, hd, hr] at h
      cases hvr : validate_receiver r with
      | error e => simp [hvr] at h
      | ok r2 =>
        simp only [hvr, Except.ok.injEq] at h
        subst h
        refine ⟨?_, by simp [hd], by simp [hr], rfl, rfl⟩
        intro v hv
        simp only [speakerRawVolumes, hd, hr, List.nil_append] at hv
        exact (validate_receiver_ok r r2 hvr).2 v hv
  | some d =>
    simp only [SPEAKER_SCHEMA, hd] at h
    cases hvd : validate_device d with
    | error e => simp [hvd] at h
    | ok d2 =>
      simp only [hvd] at h
      cases hr : raw.receiver with
      | none =>
        simp only [hr, Except.ok.injEq] at h
        subst h
        refine ⟨?_, by simp [hd], by simp [hr], rfl, rfl⟩
        intro v hv
        simp only [speakerRawVolumes, hd, hr, List.append_nil] at hv
        exact (validate_device_ok d d2 hvd).2 v hv
      | some r =>
        simp only [hr] at h
        cases hvr : validate_receiver r with
        | error e => simp [hvr] at h
        | ok r2 =>
          simp only [hvr, Except.ok.injEq] at h
          subst h
          refine ⟨?_, by simp [hd], by simp [hr], rfl, rfl⟩
          intro v hv
          simp only [speakerRawVolumes, hd, hr] at hv
          rcases List.mem_append.mp hv with h1 | h1
          · exact (validate_device_ok d d2 hvd).2 v h1
          · exact (validate_receiver_ok r r2 hvr).2 v h1

/-- A raw speaker entry holding an out-of-range volume value is rejected
by SPEAKER_SCHEMA. -/
theorem SPEAKER_SCHEMA_rejects (raw : SpeakerCfgRaw) (v : ℤ)
    (hv : v ∈ speakerRawVolumes raw) (hbad : ¬(0 ≤ v ∧ v ≤ 100)) :
    ∃ e, SPEAKER_SCHEMA raw = Except.error e := by
  cases h : SPEAKER_SCHEMA raw with
  | error e => exact ⟨e, rfl⟩
  | ok out => exact absurd ((SPEAKER_SCHEMA_ok raw out h).1 v hv) hbad
/-- Extract the no-failure trace from a characterization. -/
theorem trace_noFail (m : Res α) (L : List Call)
    (h : Res.unit m = replay noFail L) : m.1 = L := by
  have h2 := congrArg Prod.fst h
  rw [replay_noFail] at h2
  simpa [Res.unit] using h2

/-- Bridge a characterization to the no-failure-trace form: under every
oracle the operation replays its own no-failure call sequence, stopping
at the first host exception. -/
theorem char_bridge {α : Type} (op : Oracle → Res α) (L : List Call)
    (h : ∀ orc, Res.unit (op orc) = replay orc L) (orc : Oracle) :
    Res.unit (op orc) = replay orc ((op noFail).1) := by
  rw [trace_noFail (op noFail) L (h noFail)]
  exact h orc

/-- Claim C2: `Speaker.async_turn_on` issues, in this order: receiver
`turn_on`, receiver default `volume_set` (when configured), receiver
`select_source`, snapclient `turn_on`, snapclient `volume_set`; without a
receiver: snapclient `turn_on` then its default `volume_set` (when
configured).  The unmute (`volume_mute`) calls of `async_mute_volume`
follow at the end in both cases. -/
theorem C2_turn_on_order :
    (∀ (host : Host) (s : Speaker) (r : Wrapped),
      s.receiver = some r → r.entity_id ≠ "" → s.snap.entity_id ≠ "" →
      (Speaker.async_turn_on noFail host s).1
        = ⟨"turn_on", r.entity_id, CallData.empty⟩ ::
            ((match r.default_volume with
              | none => []
              | some d =>
                [⟨"volume_set", r.entity_id, CallData.volume ((d : ℚ) / 100)⟩])
              ++ [⟨"select_source", r.entity_id, CallData.selSource r.source⟩,
                  ⟨"turn_on", s.snap.entity_id, CallData.empty⟩,
                  ⟨"volume_set", s.snap.entity_id,
                    CallData.volume (s.snap.get_volume_level 1)⟩,
                  ⟨"volume_mute", r.entity_id, CallData.muted false⟩,
                  ⟨"volume_mute", s.snap.entity_id, CallData.muted false⟩]))
    ∧ (∀ (host : Host) (s : Speaker),
      s.receiver = none → s.snap.entity_id ≠ "" →
      (Speaker.async_turn_on noFail host s).1
        = ⟨"turn_on", s.snap.entity_id, CallData.empty⟩ ::
            ((match s.snap.default_volume with
              | none => []
              | some d =>
                [⟨"volume_set", s.snap.entity_id, CallData.volume ((d : ℚ) / 100)⟩])
              ++ [⟨"volume_mute", s.snap.entity_id, CallData.muted false⟩])) := by
  constructor
  · intro host s r hr hre hse
    rw [trace_noFail _ _ (speaker_turn_on_char noFail host s)]
    cases hd : r.default_volume <;>
      simp [speakerTurnOnCalls, hr, hd, defVolCalls, muteCalls, hre, hse]
  · intro host s hr hse
    rw [trace_noFail _ _ (speaker_turn_on_char noFail host s)]
    cases hd : s.snap.default_volume <;>
      simp [speakerTurnOnCalls, hr, hd, defVolCalls, muteCalls, hse]

def c2SnapCfg : WrappedCfg :=
  { entity_id := "media_player.snap1",
    volume := some { min := some 10, max := some 90, dflt := some 30 } }

def c2RecvCfg : ReceiverCfg :=
  { entity_id := "media_player.recv1", source := "HDMI1",
    volume := some { dflt := some 40 } }

def c2Spk : Speaker :=
  Speaker.init ("livingroom") true c2SnapCfg (some c2RecvCfg)
    ("media_player.livingroom")

def c2SpkNR : Speaker :=
  Speaker.init ("kitchen") true c2SnapCfg none ("media_player.kitchen")

def c2Host : Host := fun _ => {}

/-- Witness for C2 at a concrete receiver speaker and a concrete
receiverless speaker. -/
theorem C2_witness :
    (Speaker.async_turn_on noFail c2Host c2Spk).1
      = [⟨"turn_on", "media_player.recv1", CallData.empty⟩,
         ⟨"volume_set", "media_player.recv1", CallData.volume (2 / 5)⟩,
         ⟨"select_source", "media_player.recv1", CallData.selSource (some "HDMI1")⟩,
         ⟨"turn_on", "media_player.snap1", CallData.empty⟩,
         ⟨"volume_set", "media_player.snap1", CallData.volume (11 / 10)⟩,
         ⟨"volume_mute", "media_player.recv1", CallData.muted false⟩,
         ⟨"volume_mute", "media_player.snap1", CallData.muted false⟩]
    ∧ (Speaker.async_turn_on noFail c2Host c2SpkNR).1
      = [⟨"turn_on", "media_player.snap1", CallData.empty⟩,
         ⟨"volume_set", "media_player.snap1", CallData.volume (3 / 10)⟩,
         ⟨"volume_mute", "media_player.snap1", CallData.muted false⟩] := by
  constructor
  · rw [C2_turn_on_order.1 c2Host c2Spk _ rfl (by decide) (by decide)]
    norm_num [c2Spk, c2SnapCfg, c2RecvCfg, Speaker.init, Wrapped.init,
      Wrapped.get_volume_level]
  · rw [C2_turn_on_order.2 c2Host c2SpkNR rfl (by decide)]
    norm_num [c2SpkNR, c2SnapCfg, Speaker.init, Wrapped.init,
      Wrapped.get_volume_level]
/-- Claim C3, amended: `Speaker.async_turn_off` first re-selects the
receiver's cached default source (twice: once directly and once again
inside `Wrapped.turn_off`), then turns the receiver off, then re-selects
the snapclient's cached default source and turns the snapclient off, then
mutes both — the same receiver-then-snapclient device order as
`async_turn_on`, not the reverse. -/
theorem C3_turn_off_order :
    (∀ (s : Speaker) (r : Wrapped),
      s.receiver = some r → r.entity_id ≠ "" → s.snap.entity_id ≠ "" →
      (Speaker.async_turn_off noFail s).1
        = selDefCalls r ++ selDefCalls r
            ++ [⟨"turn_off", r.entity_id, CallData.empty⟩]
            ++ selDefCalls s.snap
            ++ [⟨"turn_off", s.snap.entity_id, CallData.empty⟩,
                ⟨"volume_mute", r.entity_id, CallData.muted true⟩,
                ⟨"volume_mute", s.snap.entity_id, CallData.muted true⟩])
    ∧ (∀ s : Speaker,
      s.receiver = none → s.snap.entity_id ≠ "" →
      (Speaker.async_turn_off noFail s).1
        = selDefCalls s.snap
            ++ [⟨"turn_off", s.snap.entity_id, CallData.empty⟩,
                ⟨"volume_mute", s.snap.entity_id, CallData.muted true⟩]) := by
  constructor
  · intro s r hr hre hse
    rw [trace_noFail _ _ (speaker_turn_off_char noFail s)]
    simp [speakerTurnOffCalls, hr, muteCalls, hre, hse, List.append_assoc]
  · intro s hr hse
    rw [trace_noFail _ _ (speaker_turn_off_char noFail s)]
    simp [speakerTurnOffCalls, hr, muteCalls, hse, List.append_assoc]

def c3Recv : Wrapped :=
  { entity_id := "media_player.recv1", source := some "HDMI1", min_volume := 0,
    max_volume := 1, volume_scale := 1, default_volume := some 40,
    default_source := some "TV" }

def c3Snap : Wrapped :=
  { entity_id := "media_player.snap1", source := none, min_volume := 0,
    max_volume := 1, volume_scale := 1, default_volume := none,
    default_source := some "Living" }

/-- A speaker as it stands after `async_turn_on` cached both devices'
default sources. -/
def c3SpkOn : Speaker :=
  { state := "on", name := "livingroom", snap := c3Snap,
    receiver := some c3Recv, on_default := true,
    entity_id := "media_player.livingroom" }

/-- A fresh speaker before turn-on (no cached sources). -/
def c3Spk : Speaker :=
  { state := "off", name := "livingroom", snap := { c3Snap with default_source := none },
    receiver := some { c3Recv with default_source := none }, on_default := true,
    entity_id := "media_player.livingroom" }

def c3Host : Host := fun _ => {}

/-- Claim C3, counterexample.  In the turn-on trace the receiver's
`turn_on` precedes the snapclient's, and in the turn-off trace the
receiver's `turn_off` also precedes the snapclient's: the devices are
turned off in the same order as they were turned on, so `async_turn_off`
does not issue its calls in the reverse order of `async_turn_on`. -/
theorem C3_counterexample :
    ((Speaker.async_turn_on noFail c3Host c3Spk).1.indexOf
        ⟨"turn_on", "media_player.recv1", CallData.empty⟩
      < (Speaker.async_turn_on noFail c3Host c3Spk).1.indexOf
        ⟨"turn_on", "media_player.snap1", CallData.empty⟩)
    ∧ ⟨"turn_on", "media_player.recv1", CallData.empty⟩
        ∈ (Speaker.async_turn_on noFail c3Host c3Spk).1
    ∧ ⟨"turn_on", "media_player.snap1", CallData.empty⟩
        ∈ (Speaker.async_turn_on noFail c3Host c3Spk).1
    ∧ ((Speaker.async_turn_off noFail c3SpkOn).1.indexOf
        ⟨"turn_off", "media_player.recv1", CallData.empty⟩
      < (Speaker.async_turn_off noFail c3SpkOn).1.indexOf
        ⟨"turn_off", "media_player.snap1", CallData.empty⟩)
    ∧ ⟨"turn_off", "media_player.recv1", CallData.empty⟩
        ∈ (Speaker.async_turn_off noFail c3SpkOn).1
    ∧ ⟨"turn_off", "media_player.snap1", CallData.empty⟩
        ∈ (Speaker.async_turn_off noFail c3SpkOn).1 := by
  have hon : (Speaker.async_turn_on noFail c3Host c3Spk).1
      = [⟨"turn_on", "media_player.recv1", CallData.empty⟩,
         ⟨"volume_set", "media_player.recv1", CallData.volume (2 / 5)⟩,
         ⟨"select_source", "media_player.recv1", CallData.selSource (some "HDMI1")⟩,
         ⟨"turn_on", "media_player.snap1", CallData.empty⟩,
         ⟨"volume_set", "media_player.snap1", CallData.volume 1⟩,
         ⟨"volume_mute", "media_player.recv1", CallData.muted false⟩,
         ⟨"volume_mute", "media_player.snap1", CallData.muted false⟩] := by
    rw [trace_noFail _ _ (speaker_turn_on_char noFail c3Host c3Spk)]
    norm_num [speakerTurnOnCalls, c3Spk, c3Recv, c3Snap, defVolCalls, muteCalls,
      Wrapped.get_volume_level]
    decide
  have hoff : (Speaker.async_turn_off noFail c3SpkOn).1
      = [⟨"select_source", "media_player.recv1", CallData.selSource (some "TV")⟩,
         ⟨"select_source", "media_player.recv1", CallData.selSource (some "TV")⟩,
         ⟨"turn_off", "media_player.recv1", CallData.empty⟩,
         ⟨"select_source", "media_player.snap1", CallData.selSource (some "Living")⟩,
         ⟨"turn_off", "media_player.snap1", CallData.empty⟩,
         ⟨"volume_mute", "media_player.recv1", CallData.muted true⟩,
         ⟨"volume_mute", "media_player.snap1", CallData.muted true⟩] := by
    rw [trace_noFail _ _ (speaker_turn_off_char noFail c3SpkOn)]
    norm_num [speakerTurnOffCalls, c3SpkOn, c3Recv, c3Snap, selDefCalls, muteCalls]
    decide
  rw [hon, hoff]
  refine ⟨by decide, by decide, by decide, by decide, by decide, by decide⟩
/-- Claim C4: for a non-empty speakers list, `Group.volume_level` is the
arithmetic mean of the speakers' `volume_level` values. -/
theorem C4_group_volume_mean (host : Host) (g : Group) (h : g.speakers ≠ []) :
    Group.volume_level host g
      = some ((g.speakers.map (Speaker.volume_level host)).sum
          / (g.speakers.length : ℚ)) := by
  cases hs : g.speakers with
  | nil => exact absurd hs h
  | cons a l => simp [Group.volume_level, hs]

def c4WrapA : Wrapped :=
  { entity_id := "media_player.a", source := none, min_volume := 0,
    max_volume := 1, volume_scale := 1, default_volume := none,
    default_source := none }

def c4WrapB : Wrapped := { c4WrapA with entity_id := "media_player.b" }

def c4SpkA : Speaker :=
  { state := "on", name := "a", snap := c4WrapA, receiver := none,
    on_default := true, entity_id := "media_player.sa" }

def c4SpkB : Speaker :=
  { state := "on", name := "b", snap := c4WrapB, receiver := none,
    on_default := true, entity_id := "media_player.sb" }

def c4Group : Group :=
  { name := "all", snap_entity := "media_player.group",
    speakers := [c4SpkA, c4SpkB], sources := [], state := "off" }

def c4Host : Host := fun e =>
  if e = "media_player.a" then { volume_level := some (1 / 2) }
  else if e = "media_player.b" then { volume_level := some (1 / 4) }
  else {}

/-- Witness for C4: two speakers at levels 1/2 and 1/4 average to 3/8. -/
theorem C4_witness :
    c4Group.speakers ≠ []
    ∧ Group.volume_level c4Host c4Group = some (3 / 8) := by
  refine ⟨by simp [c4Group], ?_⟩
  rw [C4_group_volume_mean c4Host c4Group (by simp [c4Group])]
  simp [c4Group, c4SpkA, c4SpkB, c4WrapA, c4WrapB, Speaker.volume_level,
    Wrapped.volume_level, Wrapped.get_volume_level, c4Host]
  norm_num

/-- Claim C8: with an empty speakers list, reading `Group.volume_level`
fails (the Python expression divides by `len(self._speakers) == 0` and
raises `ZeroDivisionError`, modelled as `none`). -/
theorem C8_empty_group_volume (host : Host) (g : Group) (h : g.speakers = []) :
    Group.volume_level host g = none := by
  simp [Group.volume_level, h]

def c8Group : Group :=
  { name := "empty", snap_entity := "media_player.group",
    speakers := [], sources := [], state := "off" }

def c8Host : Host := fun _ => {}

/-- Witness for C8 at a concrete empty group. -/
theorem C8_witness :
    c8Group.speakers = [] ∧ Group.volume_level c8Host c8Group = none :=
  ⟨rfl, C8_empty_group_volume c8Host c8Group rfl⟩

/-- Claim C5: every volume percentage accepted by SPEAKER_SCHEMA (min,
max and default, for snapclient and receiver alike) is an integer in
`[0, 100]`, and a speaker entry holding a volume value outside that range
is rejected. -/
theorem C5_volume_range :
    (∀ raw out, SPEAKER_SCHEMA raw = Except.ok out →
      ∀ v ∈ speakerRawVolumes raw, 0 ≤ v ∧ v ≤ 100)
    ∧ (∀ raw v, v ∈ speakerRawVolumes raw → ¬(0 ≤ v ∧ v ≤ 100) →
      ∃ e, SPEAKER_SCHEMA raw = Except.error e) :=
  ⟨fun raw out h => (SPEAKER_SCHEMA_ok raw out h).1,
   fun raw v hv hbad => SPEAKER_SCHEMA_rejects raw v hv hbad⟩

def c5GoodSnap : WrappedCfg :=
  { entity_id := "media_player.s",
    volume := some { min := some 10, max := some 90, dflt := some 30 } }

def c5GoodRecv : ReceiverCfg :=
  { entity_id := "media_player.r", source := "A",
    volume := some { dflt := some 40 } }

def c5RawGood : SpeakerCfgRaw :=
  { name := "good", snapclient := some c5GoodSnap, receiver := some c5GoodRecv }

def c5BadSnap : WrappedCfg :=
  { entity_id := "media_player.s",
    volume := some { min := some 10, max := some 150 } }

def c5RawBad : SpeakerCfgRaw :=
  { name := "bad", snapclient := some c5BadSnap }

/-- Witness for C5: the accepted entry's values are in range, the entry
with max 150 is rejected. -/
theorem C5_witness :
    ((0 : ℤ) ≤ 90 ∧ (90 : ℤ) ≤ 100)
    ∧ (∃ e, SPEAKER_SCHEMA c5RawBad = Except.error e) :=
  ⟨C5_volume_range.1 c5RawGood
      { name := "good", on_default := true, snapclient := some c5GoodSnap,
        receiver := some c5GoodRecv } rfl 90 (by decide),
   C5_volume_range.2 c5RawBad 150 (by decide) (by decide)⟩

/-- Claim C6: `Group.async_select_source` on a configured name issues the
per-source `select_source` (when an underlying entity is configured),
then `select_source` with the mapped `snapcast_source` to the snap group
entity. -/
theorem C6_select_source (g : Group) (name : String) (si : Source)
    (h : sourcesLookup g.sources name = some si) :
    Group.async_select_source noFail g name
      = ((match si.source with
          | none => []
          | some se =>
            [⟨"select_source", se.entity_id, CallData.selSource (some se.name)⟩])
          ++ [⟨"select_source", g.snap_entity,
               CallData.selSource (some si.snapcast_source)⟩],
         Except.ok g) := by
  simp only [Group.async_select_source, h]
  rw [source_select_replay noFail si, replay_noFail]
  simp [Res.bind, callService, noFail, Res.pure, sourceSelectCalls]

def c6Source : Source :=
  { name := "radio", snapcast_source := "Spotify",
    source := some { name := "FM4", entity_id := "media_player.tuner" } }

def c6Group : Group :=
  { name := "all", snap_entity := "media_player.group", speakers := [],
    sources := [c6Source], state := "off" }

/-- Witness for C6 at a concrete group and source. -/
theorem C6_witness :
    sourcesLookup c6Group.sources ("radio") = some c6Source
    ∧ Group.async_select_source noFail c6Group ("radio")
      = ([⟨"select_source", "media_player.tuner", CallData.selSource (some "FM4")⟩,
          ⟨"select_source", "media_player.group", CallData.selSource (some "Spotify")⟩],
         Except.ok c6Group) := by
  refine ⟨by decide, ?_⟩
  rw [C6_select_source c6Group ("radio") c6Source (by decide)]
  simp [c6Source, c6Group]

/-- Claim C9: `Group.async_select_source` with an unknown name raises a
`KeyError` from the dict lookup before any service call, under every
oracle: the trace is empty, so no device state changes. -/
theorem C9_select_source_missing (orc : Oracle) (g : Group) (name : String)
    (h : sourcesLookup g.sources name = none) :
    Group.async_select_source orc g name = ([], Except.error ("KeyError")) := by
  simp [Group.async_select_source, h]

def c9Group : Group :=
  { name := "all", snap_entity := "media_player.group", speakers := [],
    sources := [{ name := "radio", snapcast_source := "Spotify" }],
    state := "off" }

/-- Witness for C9: the concrete group has no source named `bogus`. -/
theorem C9_witness :
    sourcesLookup c9Group.sources ("bogus") = none
    ∧ Group.async_select_source noFail c9Group ("bogus")
      = ([], Except.error ("KeyError")) :=
  ⟨by decide, C9_select_source_missing noFail c9Group ("bogus") (by decide)⟩
/-- Claim C10: the group's `async_turn_on`/`async_turn_off` issue one
`turn_on`/`turn_off` per speaker whose `_on_default` flag is set, in list
order, and no call for the others; SPEAKER_SCHEMA fills `on_default` with
`True` when the key is absent. -/
theorem C10_group_on_default :
    (∀ g : Group, (Group.async_turn_on noFail g).1
      = (g.speakers.filter (fun sp => sp.on_default)).map
          (fun sp => ⟨"turn_on", sp.entity_id, CallData.empty⟩))
    ∧ (∀ g : Group, (Group.async_turn_off noFail g).1
      = (g.speakers.filter (fun sp => sp.on_default)).map
          (fun sp => ⟨"turn_off", sp.entity_id, CallData.empty⟩))
    ∧ (∀ raw out, raw.on_default = none → SPEAKER_SCHEMA raw = Except.ok out →
        out.on_default = true) := by
  refine ⟨?_, ?_, ?_⟩
  · intro g
    rw [trace_noFail _ _ (group_turn_on_char noFail g)]
    rfl
  · intro g
    rw [trace_noFail _ _ (group_turn_off_char noFail g)]
    rfl
  · intro raw out hod h
    rw [(SPEAKER_SCHEMA_ok raw out h).2.2.2.1, hod]
    rfl

def c10WrapA : Wrapped :=
  { entity_id := "media_player.a", source := none, min_volume := 0,
    max_volume := 1, volume_scale := 1, default_volume := none,
    default_source := none }

def c10SpkA : Speaker :=
  { state := "off", name := "a", snap := c10WrapA, receiver := none,
    on_default := true, entity_id := "media_player.sa" }

def c10SpkB : Speaker :=
  { state := "off", name := "b", snap := c10WrapA, receiver := none,
    on_default := false, entity_id := "media_player.sb" }

def c10Group : Group :=
  { name := "all", snap_entity := "media_player.group",
    speakers := [c10SpkA, c10SpkB], sources := [], state := "off" }

def c10Raw : SpeakerCfgRaw :=
  { name := "plain", snapclient := some { entity_id := "media_player.s" } }

def c10Out : SpeakerCfgV :=
  SpeakerCfgV.mk ("plain") true (some { entity_id := "media_player.s" }) none

/-- Witness for C10: of two speakers only the `_on_default` one is turned
on, and a raw entry without `on_default` validates to `True`. -/
theorem C10_witness :
    (Group.async_turn_on noFail c10Group).1
      = [⟨"turn_on", "media_player.sa", CallData.empty⟩]
    ∧ c10Raw.on_default = none
    ∧ (SPEAKER_SCHEMA c10Raw).map (fun out => out.on_default)
      = Except.ok true := by
  refine ⟨?_, rfl, ?_⟩
  · rw [C10_group_on_default.1 c10Group]
    decide
  · have h : SPEAKER_SCHEMA c10Raw = Except.ok c10Out := rfl
    have h2 := C10_group_on_default.2.2 c10Raw c10Out rfl h
    rw [h]
    simp [Except.map, h2]
/-- Claim C7: no operation of `Speaker`, `Group`, `Source` or `Wrapped`
catches, retries, or recovers from a failing host service call.  Each
operation, under every oracle, behaves exactly like replaying its own
no-failure call sequence: calls are attempted in a fixed order, the first
host exception aborts the operation, and (first conjuncts) that exception
is the oracle's error returned unchanged, with the completed-call trace
being exactly the successful prefix — no retry, no recovery, no
partial-failure handling.  The two operations that can raise a Python
`KeyError` of their own (`Source.play_media` on a config with a stray
top-level `play_media` key, which SOURCE_SCHEMA never admits, and
`Group.async_select_source` on an unknown name, treated by C9) carry the
corresponding hypotheses. -/
theorem C7_no_error_handling :
    (∀ (s : Source) (orc : Oracle), s.play_media_extra = none →
      Res.unit (Source.play_media orc s)
        = replay orc ((Source.play_media noFail s).1))
    ∧ (∀ (g : Group) (n : String) (si : Source) (orc : Oracle),
      sourcesLookup g.sources n = some si →
      Res.unit (Group.async_select_source orc g n)
        = replay orc ((Group.async_select_source noFail g n).1))
    ∧ (∀ (orc : Oracle) (l : List Call) (e : Err),
      (replay orc l).2 = Except.error e →
      ∃ l1 c l2, l = l1 ++ c :: l2 ∧ orc c = some e
        ∧ (replay orc l).1 = l1 ∧ (∀ c1 ∈ l1, orc c1 = none))
    ∧ (∀ (w : Wrapped) (name : String) (data : CallData) (orc : Oracle),
      Res.unit (Wrapped.call_service orc w name data)
        = replay orc ((Wrapped.call_service noFail w name data).1))
    ∧ (∀ (name entity_id : String) (data : CallData) (orc : Oracle),
      Res.unit (_call_service orc name entity_id data)
        = replay orc ((_call_service noFail name entity_id data).1))
    ∧ (∀ (host : Host) (w : Wrapped) (orc : Oracle),
      Res.unit (Wrapped.turn_on orc host w)
        = replay orc ((Wrapped.turn_on noFail host w).1))
    ∧ (∀ (w : Wrapped) (orc : Oracle),
      Res.unit (Wrapped.turn_off orc w)
        = replay orc ((Wrapped.turn_off noFail w).1))
    ∧ (∀ (w : Wrapped) (b : Bool) (orc : Oracle),
      Res.unit (Wrapped.mute_volume orc w b)
        = replay orc ((Wrapped.mute_volume noFail w b).1))
    ∧ (∀ (w : Wrapped) (v : ℚ) (orc : Oracle),
      Res.unit (Wrapped.set_volume_level orc w v)
        = replay orc ((Wrapped.set_volume_level noFail w v).1))
    ∧ (∀ (w : Wrapped) (orc : Oracle),
      Res.unit (Wrapped.set_default_volume orc w)
        = replay orc ((Wrapped.set_default_volume noFail w).1))
    ∧ (∀ (w : Wrapped) (src : Option String) (orc : Oracle),
      Res.unit (Wrapped.select_source orc w src)
        = replay orc ((Wrapped.select_source noFail w src).1))
    ∧ (∀ (w : Wrapped) (orc : Oracle),
      Res.unit (Wrapped.select_default_source orc w)
        = replay orc ((Wrapped.select_default_source noFail w).1))
    ∧ (∀ (host : Host) (s : Speaker) (orc : Oracle),
      Res.unit (Speaker.async_turn_on orc host s)
        = replay orc ((Speaker.async_turn_on noFail host s).1))
    ∧ (∀ (s : Speaker) (orc : Oracle),
      Res.unit (Speaker.async_turn_off orc s)
        = replay orc ((Speaker.async_turn_off noFail s).1))
    ∧ (∀ (s : Speaker) (b : Bool) (orc : Oracle),
      Res.unit (Speaker.async_mute_volume orc s b)
        = replay orc ((Speaker.async_mute_volume noFail s b).1))
    ∧ (∀ (s : Speaker) (v : ℚ) (orc : Oracle),
      Res.unit (Speaker.async_set_volume_level orc s v)
        = replay orc ((Speaker.async_set_volume_level noFail s v).1))
    ∧ (∀ (s : Source) (orc : Oracle),
      Res.unit (Source.select orc s)
        = replay orc ((Source.select noFail s).1))
    ∧ (∀ (s : Source) (orc : Oracle),
      Res.unit (Source.media_play orc s)
        = replay orc ((Source.media_play noFail s).1))
    ∧ (∀ (s : Source) (orc : Oracle),
      Res.unit (Source.media_pause orc s)
        = replay orc ((Source.media_pause noFail s).1))
    ∧ (∀ (s : Source) (orc : Oracle),
      Res.unit (Source.media_stop orc s)
        = replay orc ((Source.media_stop noFail s).1))
    ∧ (∀ (g : Group) (orc : Oracle),
      Res.unit (Group.async_turn_on orc g)
        = replay orc ((Group.async_turn_on noFail g).1))
    ∧ (∀ (g : Group) (orc : Oracle),
      Res.unit (Group.async_turn_off orc g)
        = replay orc ((Group.async_turn_off noFail g).1))
    ∧ (∀ (g : Group) (b : Bool) (orc : Oracle),
      Res.unit (Group.async_mute_volume orc g b)
        = replay orc ((Group.async_mute_volume noFail g b).1))
    ∧ (∀ (host : Host) (g : Group) (orc : Oracle),
      Res.unit (Group.async_media_play orc host g)
        = replay orc ((Group.async_media_play noFail host g).1))
    ∧ (∀ (host : Host) (g : Group) (orc : Oracle),
      Res.unit (Group.async_media_pause orc host g)
        = replay orc ((Group.async_media_pause noFail host g).1))
    ∧ (∀ (host : Host) (g : Group) (orc : Oracle),
      Res.unit (Group.async_media_stop orc host g)
        = replay orc ((Group.async_media_stop noFail host g).1)) := by
  refine ⟨?_, ?_, ?_, ?_, ?_, ?_, ?_, ?_, ?_, ?_, ?_, ?_, ?_, ?_, ?_, ?_, ?_,
    ?_, ?_, ?_, ?_, ?_, ?_, ?_, ?_, ?_⟩
  · intro s orc hx
    exact char_bridge (fun o => Source.play_media o s) []
      (fun o => by rw [Res.unit_id] ; exact source_play_media_replay o s hx) orc
  · intro g n si orc hlk
    exact char_bridge (fun o => Group.async_select_source o g n) _
      (fun o => group_select_source_char o g n si hlk) orc
  · exact replay_error_from_oracle
  · intro w name data orc
    exact char_bridge (fun o => Wrapped.call_service o w name data) _
      (fun o => w_call_service_char o w name data) orc
  · intro name entity_id data orc
    exact char_bridge (fun o => _call_service o name entity_id data) _
      (fun o => _call_service_char o name entity_id data) orc
  · intro host w orc
    exact char_bridge (fun o => Wrapped.turn_on o host w) _
      (fun o => w_turn_on_char o host w) orc
  · intro w orc
    exact char_bridge (fun o => Wrapped.turn_off o w) _
      (fun o => w_turn_off_char o w) orc
  · intro w b orc
    exact char_bridge (fun o => Wrapped.mute_volume o w b) _
      (fun o => w_mute_volume_char o w b) orc
  · intro w v orc
    exact char_bridge (fun o => Wrapped.set_volume_level o w v) _
      (fun o => w_set_volume_level_char o w v) orc
  · intro w orc
    exact char_bridge (fun o => Wrapped.set_default_volume o w) _
      (fun o => w_set_default_volume_char o w) orc
  · intro w src orc
    exact char_bridge (fun o => Wrapped.select_source o w src) _
      (fun o => w_select_source_char o w src) orc
  · intro w orc
    exact char_bridge (fun o => Wrapped.select_default_source o w) _
      (fun o => w_select_default_source_char o w) orc
  · intro host s orc
    exact char_bridge (fun o => Speaker.async_turn_on o host s) _
      (fun o => speaker_turn_on_char o host s) orc
  · intro s orc
    exact char_bridge (fun o => Speaker.async_turn_off o s) _
      (fun o => speaker_turn_off_char o s) orc
  · intro s b orc
    exact char_bridge (fun o => Speaker.async_mute_volume o s b) _
      (fun o => speaker_mute_char o s b) orc
  · intro s v orc
    exact char_bridge (fun o => Speaker.async_set_volume_level o s v) _
      (fun o => speaker_set_vol_char o s v) orc
  · intro s orc
    exact char_bridge (fun o => Source.select o s) _
      (fun o => by rw [Res.unit_id] ; exact source_select_replay o s) orc
  · intro s orc
    exact char_bridge (fun o => Source.media_play o s) _
      (fun o => by rw [Res.unit_id] ; exact source_media_play_replay o s) orc
  · intro s orc
    exact char_bridge (fun o => Source.media_pause o s) _
      (fun o => by rw [Res.unit_id] ; exact source_media_pause_replay o s) orc
  · intro s orc
    exact char_bridge (fun o => Source.media_stop o s) _
      (fun o => by rw [Res.unit_id] ; exact source_media_stop_replay o s) orc
  · intro g orc
    exact char_bridge (fun o => Group.async_turn_on o g) _
      (fun o => group_turn_on_char o g) orc
  · intro g orc
    exact char_bridge (fun o => Group.async_turn_off o g) _
      (fun o => group_turn_off_char o g) orc
  · intro g b orc
    exact char_bridge (fun o => Group.async_mute_volume o g b) _
      (fun o => group_mute_char o g b) orc
  · intro host g orc
    exact char_bridge (fun o => Group.async_media_play o host g) _
      (fun o => group_media_play_char o host g) orc
  · intro host g orc
    exact char_bridge (fun o => Group.async_media_pause o host g) _
      (fun o => group_media_pause_char o host g) orc
  · intro host g orc
    exact char_bridge (fun o => Group.async_media_stop o host g) _
      (fun o => group_media_stop_char o host g) orc

def c7Source : Source := { name := "radio", snapcast_source := "Spotify" }

def c7Group : Group :=
  { name := "all", snap_entity := "media_player.group", speakers := [],
    sources := [c7Source], state := "off" }

def c7Orc : Oracle := fun c =>
  if c.service = "volume_mute" then some ("boom") else none

def c7Calls : List Call :=
  [⟨"turn_on", "media_player.x", CallData.empty⟩,
   ⟨"volume_mute", "media_player.x", CallData.muted true⟩]

/-- Witness for C7 at a concrete source, group, failing oracle and call
list. -/
theorem C7_witness :
    (Res.unit (Source.play_media c7Orc c7Source)
      = replay c7Orc ((Source.play_media noFail c7Source).1))
    ∧ (Res.unit (Group.async_select_source c7Orc c7Group ("radio"))
      = replay c7Orc ((Group.async_select_source noFail c7Group ("radio")).1))
    ∧ (∃ l1 c l2, c7Calls = l1 ++ c :: l2 ∧ c7Orc c = some ("boom")
        ∧ (replay c7Orc c7Calls).1 = l1 ∧ (∀ c1 ∈ l1, c7Orc c1 = none)) :=
  ⟨C7_no_error_handling.1 c7Source c7Orc rfl,
   C7_no_error_handling.2.1 c7Group ("radio") c7Source c7Orc (by decide),
   C7_no_error_handling.2.2.1 c7Orc c7Calls ("boom") rfl⟩
/-- Witness for the amended C3 at the concrete post-turn-on speaker. -/
theorem C3_witness :
    (Speaker.async_turn_off noFail c3SpkOn).1
      = [⟨"select_source", "media_player.recv1", CallData.selSource (some "TV")⟩,
         ⟨"select_source", "media_player.recv1", CallData.selSource (some "TV")⟩,
         ⟨"turn_off", "media_player.recv1", CallData.empty⟩,
         ⟨"select_source", "media_player.snap1", CallData.selSource (some "Living")⟩,
         ⟨"turn_off", "media_player.snap1", CallData.empty⟩,
         ⟨"volume_mute", "media_player.recv1", CallData.muted true⟩,
         ⟨"volume_mute", "media_player.snap1", CallData.muted true⟩] := by
  rw [C3_turn_off_order.1 c3SpkOn c3Recv rfl (by decide) (by decide)]
  decide
end Wha
